import Mathlib

/-!
Shallow embedding of the YAML schema-migration engine of `app/migrations.go`
(`meroku`).  YAML documents are modelled as association lists from string keys
to dynamically-typed values (`Val`); Go's in-place map mutation is modelled by
explicit functional update (`insertKey` / `eraseKey`), and each migration
step's `func(map[string]interface{}) error` becomes `Doc → Doc × Option String`
(resulting document state, error).  Go float64 literals (only `0.5` and `1.0`
occur, and they are never computed with) are modelled as exact fractions
`num / den`.  Go string slicing is byte-based; all strings the engine slices
are ASCII in the claims considered, so character-based slicing over
`String.data` is used.
-/

/-- A dynamically-typed YAML value (`interface{}` after `yaml.v2` decoding). -/
inductive Val where
  | null
  | bool (b : Bool)
  | int (n : Int)
  | float (num : Int) (den : Nat)
  | str (s : String)
  | list (xs : List Val)
  | map (m : List (String × Val))

mutual

/-- Structural equality of values: Go's `==` on `interface{}` data. -/
def Val.beq : Val → Val → Bool
  | .null, .null => true
  | .bool a, .bool b => a == b
  | .int a, .int b => a == b
  | .float a b, .float c d => a == c && b == d
  | .str a, .str b => a == b
  | .list xs, .list ys => Val.beqList xs ys
  | .map a, .map b => Val.beqMap a b
  | _, _ => false

/-- Elementwise equality of value lists. -/
def Val.beqList : List Val → List Val → Bool
  | [], [] => true
  | x :: xs, y :: ys => Val.beq x y && Val.beqList xs ys
  | _, _ => false

/-- Elementwise equality of key-value lists. -/
def Val.beqMap : List (String × Val) → List (String × Val) → Bool
  | [], [] => true
  | (k, v) :: xs, (l, w) :: ys => k == l && Val.beq v w && Val.beqMap xs ys
  | _, _ => false

end

mutual

theorem Val.beq_refl : ∀ a : Val, Val.beq a a = true
  | .null => rfl
  | .bool b => by simp [Val.beq]
  | .int n => by simp [Val.beq]
  | .float a b => by simp [Val.beq]
  | .str s => by simp [Val.beq]
  | .list xs => by simp [Val.beq, Val.beqList_refl xs]
  | .map m => by simp [Val.beq, Val.beqMap_refl m]

theorem Val.beqList_refl : ∀ xs : List Val, Val.beqList xs xs = true
  | [] => rfl
  | x :: xs => by simp [Val.beqList, Val.beq_refl x, Val.beqList_refl xs]

theorem Val.beqMap_refl : ∀ m : List (String × Val), Val.beqMap m m = true
  | [] => rfl
  | (k, v) :: m => by simp [Val.beqMap, Val.beq_refl v, Val.beqMap_refl m]

end

theorem Val.beq_sound_fuel (n : Nat) :
    (∀ a b : Val, sizeOf a ≤ n → Val.beq a b = true → a = b) ∧
    (∀ xs ys : List Val, sizeOf xs ≤ n → Val.beqList xs ys = true → xs = ys) ∧
    (∀ m m' : List (String × Val), sizeOf m ≤ n → Val.beqMap m m' = true → m = m') := by
  induction n with
  | zero =>
      refine ⟨fun a b ha => ?_, fun xs ys ha => ?_, fun m m' ha => ?_⟩ <;>
        [cases a; cases xs; cases m] <;> simp_arith at ha
  | succ n ih =>
      obtain ⟨ihV, ihL, ihM⟩ := ih
      refine ⟨fun a b ha hb => ?_, fun xs ys ha hb => ?_, fun m m' ha hb => ?_⟩
      · cases a <;> cases b <;> simp [Val.beq] at hb <;> try (simp [hb])
        · exact ihL _ _ (by simp_arith at ha; omega) hb
        · exact ihM _ _ (by simp_arith at ha; omega) hb
      · cases xs with
        | nil => cases ys with
          | nil => rfl
          | cons y ys => simp [Val.beqList] at hb
        | cons x xs => cases ys with
          | nil => simp [Val.beqList] at hb
          | cons y ys =>
              simp [Val.beqList] at hb
              have hx : sizeOf x ≤ n := by simp_arith at ha; omega
              have hxs : sizeOf xs ≤ n := by simp_arith at ha; omega
              rw [ihV x y hx hb.1, ihL xs ys hxs hb.2]
      · cases m with
        | nil => cases m' with
          | nil => rfl
          | cons y m' => simp [Val.beqMap] at hb
        | cons x m => cases m' with
          | nil => simp [Val.beqMap] at hb
          | cons y m' =>
              obtain ⟨k, v⟩ := x
              obtain ⟨l, w⟩ := y
              simp [Val.beqMap] at hb
              have hv : sizeOf v ≤ n := by simp_arith at ha; omega
              have hm : sizeOf m ≤ n := by simp_arith at ha; omega
              rw [hb.1.1, ihV v w hv hb.1.2, ihM m m' hm hb.2]

theorem Val.beq_sound {a b : Val} (h : Val.beq a b = true) : a = b :=
  (Val.beq_sound_fuel (sizeOf a)).1 a b (Nat.le_refl _) h

instance : DecidableEq Val := fun a b =>
  if h : Val.beq a b = true then .isTrue (Val.beq_sound h)
  else .isFalse (fun e => h (e ▸ Val.beq_refl a))

/-- A YAML document / nested mapping: `map[string]interface{}`. -/
abbrev Doc := List (String × Val)

/-- `m[k]` with its `ok` flag: `some v` iff key `k` is present. -/
def lookupKey : Doc → String → Option Val
  | [], _ => none
  | (k', v) :: tl, k => if k' = k then some v else lookupKey tl k

/-- `m[k] = v`: replace in place if present, else append. -/
def insertKey : Doc → String → Val → Doc
  | [], k, v => [(k, v)]
  | (k', v') :: tl, k, v =>
      if k' = k then (k, v) :: tl else (k', v') :: insertKey tl k v

/-- `delete(m, k)`. -/
def eraseKey : Doc → String → Doc
  | [], _ => []
  | (k', v') :: tl, k =>
      if k' = k then eraseKey tl k else (k', v') :: eraseKey tl k

/-- `data[k].(map[interface{}]interface{})` with its `ok` flag. -/
def getMap (d : Doc) (k : String) : Option Doc :=
  match lookupKey d k with
  | some (.map m) => some m
  | _ => none

theorem lookupKey_insertKey_self (d : Doc) (k : String) (v : Val) :
    lookupKey (insertKey d k v) k = some v := by
  induction d with
  | nil => simp [insertKey, lookupKey]
  | cons hd tl ih =>
      obtain ⟨k', v'⟩ := hd
      by_cases h : k' = k <;> simp [insertKey, lookupKey, h, ih]

theorem lookupKey_insertKey_ne (d : Doc) (k k' : String) (v : Val) (h : k ≠ k') :
    lookupKey (insertKey d k v) k' = lookupKey d k' := by
  induction d with
  | nil => simp [insertKey, lookupKey, h]
  | cons hd tl ih =>
      obtain ⟨k₀, v₀⟩ := hd
      by_cases h₀ : k₀ = k
      · subst h₀; simp [insertKey, lookupKey, h]
      · simp [insertKey, h₀, lookupKey, ih]

theorem lookupKey_eraseKey_self (d : Doc) (k : String) :
    lookupKey (eraseKey d k) k = none := by
  induction d with
  | nil => simp [eraseKey, lookupKey]
  | cons hd tl ih =>
      obtain ⟨k₀, v₀⟩ := hd
      by_cases h₀ : k₀ = k <;> simp [eraseKey, lookupKey, h₀, ih]

theorem lookupKey_eraseKey_ne (d : Doc) (k k' : String) (h : k ≠ k') :
    lookupKey (eraseKey d k) k' = lookupKey d k' := by
  induction d with
  | nil => simp [eraseKey, lookupKey]
  | cons hd tl ih =>
      obtain ⟨k₀, v₀⟩ := hd
      by_cases h₀ : k₀ = k
      · subst h₀; simp [eraseKey, lookupKey, h, ih]
      · simp [eraseKey, lookupKey, h₀, ih]

theorem getMap_insertKey_ne (d : Doc) (k k' : String) (v : Val) (h : k ≠ k') :
    getMap (insertKey d k v) k' = getMap d k' := by
  simp [getMap, lookupKey_insertKey_ne d k k' v h]

theorem getMap_eraseKey_ne (d : Doc) (k k' : String) (h : k ≠ k') :
    getMap (eraseKey d k) k' = getMap d k' := by
  simp [getMap, lookupKey_eraseKey_ne d k k' h]

theorem getMap_congr_lookup (d d' : Doc) (k : String)
    (h : lookupKey d k = lookupKey d' k) : getMap d k = getMap d' k := by
  unfold getMap
  rw [h]

/-!  ## The migration engine (`app/migrations.go`)  -/

/-- `CurrentSchemaVersion` (migrations.go line 24). -/
def CurrentSchemaVersion : Int := 12

/-- Go's pervasive `if _, exists := m[k]; !exists { m[k] = v }` pattern. -/
def addIfAbsent (m : Doc) (k : String) (v : Val) : Doc :=
  if (lookupKey m k).isSome then m else insertKey m k v

/-- Go's `fix zero values` pattern of `migrateToV4`: write the default when
the key is absent or holds the integer `0`. -/
def fixIntZero (m : Doc) (k : String) (dv : Int) : Doc :=
  match lookupKey m k with
  | none => insertKey m k (.int dv)
  | some (.int n) => if n = 0 then insertKey m k (.int dv) else m
  | some _ => m

/-- Go's `fix empty values` pattern of `migrateToV4`
(`!exists || cur == ""`): write the default when the key is absent or holds
the empty string. -/
def fixEmptyStr (m : Doc) (k : String) (dv : String) : Doc :=
  match lookupKey m k with
  | none => insertKey m k (.str dv)
  | some cur => if cur = .str "" then insertKey m k (.str dv) else m

/-- `migrateToV6`'s `vpc_cidr` pattern (`exists && cur == ""`): rewrite the
value only when the key is present and holds the empty string. -/
def fixEmptyStrPresent (m : Doc) (k : String) (dv : String) : Doc :=
  match lookupKey m k with
  | some cur => if cur = .str "" then insertKey m k (.str dv) else m
  | none => m

/-- Go's `if _, exists := m[k]; exists { delete(m, k) }` pattern. -/
def eraseIfPresent (m : Doc) (k : String) : Doc :=
  if (lookupKey m k).isSome then eraseKey m k else m

/-- The shared shape of `migrateV8ToV9`'s three blocks: when `key` is present
and holds a list, rewrite the list elementwise. -/
def mapListKey (d : Doc) (key : String) (f : List Val → List Val) : Doc :=
  match lookupKey d key with
  | some (.list items) => insertKey d key (.list (f items))
  | _ => d

/-- A single migration step: `Migration` (migrations.go lines 33-37).
`Apply` returns the mutated document together with the Go error value. -/
structure Migration where
  Version : Int
  Description : String
  Apply : Doc → Doc × Option String

/-- `detectSchemaVersion` (migrations.go lines 99-147): trust an integer
`schema_version`, except a stamp of 6 with a residual deprecated VPC key is
demoted to 5; otherwise sniff structural markers from newest to oldest. -/
def detectSchemaVersion (d : Doc) : Int :=
  match lookupKey d "schema_version" with
  | some (.int version) =>
      if version = 6 then
        if (lookupKey d "az_count").isSome then 5
        else if (lookupKey d "create_private_subnets").isSome then 5
        else if (lookupKey d "enable_nat_gateway").isSome then 5
        else version
      else version
  | _ =>
      if (lookupKey d "account_id").isSome then 5
      else if (match getMap d "workload" with
               | some w => (lookupKey w "backend_desired_count").isSome
               | none => false) then 4
      else if (match getMap d "domain" with
               | some dm => (lookupKey dm "zone_id").isSome
               | none => false) then 3
      else if (match getMap d "postgres" with
               | some pg => (lookupKey pg "aurora").isSome
               | none => false) then 2
      else 1

/-- `migrateToV2` (migrations.go lines 150-170): add Aurora Serverless v2
fields to `postgres` when `aurora` is absent, and a disabled `alb` block when
absent. -/
def migrateToV2 (d : Doc) : Doc × Option String :=
  let d :=
    match getMap d "postgres" with
    | some postgres =>
        if (lookupKey postgres "aurora").isSome then d
        else
          insertKey d "postgres" (.map
            (insertKey (insertKey (insertKey postgres
              "aurora" (.bool false))
              "min_capacity" (.float 1 2))
              "max_capacity" (.float 1 1)))
    | none => d
  let d := addIfAbsent d "alb" (.map [("enabled", .bool false)])
  (d, none)

/-- `migrateToV3` (migrations.go lines 173-219): add DNS-management fields to
`domain` when absent; `zone_id` only when `create_domain_zone` is `false`. -/
def migrateToV3 (d : Doc) : Doc × Option String :=
  match getMap d "domain" with
  | none => (d, none)
  | some domain =>
      let createDomainZone :=
        match lookupKey domain "create_domain_zone" with
        | some (.bool b) => b
        | some _ => true
        | none => true
      let domain :=
        if !createDomainZone then addIfAbsent domain "zone_id" (.str "")
        else domain
      let domain := addIfAbsent domain "root_zone_id" (.str "")
      let domain := addIfAbsent domain "root_account_id" (.str "")
      let domain := addIfAbsent domain "is_dns_root" (.bool false)
      let domain := addIfAbsent domain "dns_root_account_id" (.str "")
      let domain := addIfAbsent domain "delegation_role_arn" (.str "")
      let domain := addIfAbsent domain "api_domain_prefix" (.str "")
      let domain := addIfAbsent domain "add_env_domain_prefix" (.bool false)
      (insertKey d "domain" (.map domain), none)

/-- `migrateToV4` (migrations.go lines 222-268): add backend scaling fields to
`workload`; counts equal to integer `0` and CPU/memory equal to `""` are
treated as corrupted sentinels and rewritten to the defaults. -/
def migrateToV4 (d : Doc) : Doc × Option String :=
  match getMap d "workload" with
  | none => (d, none)
  | some workload =>
      let workload := fixIntZero workload "backend_desired_count" 1
      let workload := addIfAbsent workload "backend_autoscaling_enabled" (.bool false)
      let workload := fixIntZero workload "backend_autoscaling_min_capacity" 1
      let workload := fixIntZero workload "backend_autoscaling_max_capacity" 4
      let workload := fixEmptyStr workload "backend_cpu" "256"
      let workload := fixEmptyStr workload "backend_memory" "512"
      let workload := addIfAbsent workload "backend_alb_domain_name" (.str "")
      (insertKey d "workload" (.map workload), none)

/-- `migrateToV5` (migrations.go lines 271-282): add empty `account_id` and
`aws_profile` when absent. -/
def migrateToV5 (d : Doc) : Doc × Option String :=
  let d := addIfAbsent d "account_id" (.str "")
  let d := addIfAbsent d "aws_profile" (.str "")
  (d, none)

/-- `migrateToV6` (migrations.go lines 285-318): add `use_default_vpc = true`
when absent, rewrite an empty `vpc_cidr`, and delete the three deprecated VPC
keys. -/
def migrateToV6 (d : Doc) : Doc × Option String :=
  let d := addIfAbsent d "use_default_vpc" (.bool true)
  let d := fixEmptyStrPresent d "vpc_cidr" "10.0.0.0/16"
  let d := eraseIfPresent d "az_count"
  let d := eraseIfPresent d "create_private_subnets"
  let d := eraseIfPresent d "enable_nat_gateway"
  (d, none)

/-- `migrateToV7` (migrations.go lines 321-356): choose an `ecr_strategy`
(`local` for dev or isolated environments, `cross_account` when a non-empty
`ecr_account_id` is set) and materialise `ecr_account_id`/`ecr_account_region`
as nulls when absent. -/
def migrateToV7 (d : Doc) : Doc × Option String :=
  let d :=
    if (lookupKey d "ecr_strategy").isSome then d
    else
      let env := match lookupKey d "env" with | some (.str s) => s | _ => ""
      if env = "dev" then insertKey d "ecr_strategy" (.str "local")
      else
        match lookupKey d "ecr_account_id" with
        | some ecrAccountID =>
            if ecrAccountID = .null then insertKey d "ecr_strategy" (.str "local")
            else if ecrAccountID = .str "" then insertKey d "ecr_strategy" (.str "local")
            else insertKey d "ecr_strategy" (.str "cross_account")
        | none => insertKey d "ecr_strategy" (.str "local")
  let d := addIfAbsent d "ecr_account_id" .null
  let d := addIfAbsent d "ecr_account_region" .null
  (d, none)

/-- `migrateToV8` (migrations.go lines 359-369): initialise an empty
`ecr_trusted_accounts` array when absent. -/
def migrateToV8 (d : Doc) : Doc × Option String :=
  (addIfAbsent d "ecr_trusted_accounts" (.list []), none)

/-- `addDefaultECRConfig` inside `migrateV8ToV9` (migrations.go lines
376-393): give every map-shaped item a default `ecr_config` when absent and
count the changed items. -/
def addDefaultECRConfig (items : List Val) : List Val × Nat :=
  let results := items.map (fun itemRaw =>
    match itemRaw with
    | .map itemMap =>
        if (lookupKey itemMap "ecr_config").isSome then (itemRaw, 0)
        else (Val.map (insertKey itemMap "ecr_config"
                (.map [("mode", .str "create_ecr")])), 1)
    | _ => (itemRaw, 0))
  (results.map Prod.fst, (results.map Prod.snd).sum)

/-- `migrateV8ToV9` (migrations.go lines 372-437), registered as the v10 step:
add a default per-item `ecr_config` to `services`, `event_processor_tasks`
and `scheduled_tasks`. -/
def migrateV8ToV9 (d : Doc) : Doc × Option String :=
  let ecrStep := fun items => (addDefaultECRConfig items).1
  let d := mapListKey d "services" ecrStep
  let d := mapListKey d "event_processor_tasks" ecrStep
  let d := mapListKey d "scheduled_tasks" ecrStep
  (d, none)

/-- Go byte length of an (ASCII) string: `len(s)`. -/
def goStrLen (s : String) : Nat := s.data.length

/-- Go slice `s[:n]`. -/
def goStrTake (s : String) (n : Nat) : String := ⟨s.data.take n⟩

/-- Go slice `s[len(s)-n:]`. -/
def goStrSuffix (s : String) (n : Nat) : String := ⟨s.data.drop (s.data.length - n)⟩

/-- The per-app body of `migrateToV9`'s loop (migrations.go lines 481-538):
strip `enable_root_domain`, and when both `custom_domain` and the base domain
are non-empty, subtract the base domain (and then try to subtract the
environment suffix written as `env ++ "."`), store the remainder as
`subdomain_prefix` when non-empty, and delete `custom_domain`. -/
def v9MigrateApp (domainName env : String) (addEnvPfx : Bool) (appRaw : Val) : Val :=
  match appRaw with
  | .map appMap =>
      let customDomain :=
        match lookupKey appMap "custom_domain" with
        | some (.str s) => s
        | _ => ""
      let hasCustomDomain :=
        match lookupKey appMap "custom_domain" with
        | some (.str _) => true
        | _ => false
      let hasEnableRoot := (lookupKey appMap "enable_root_domain").isSome
      if !hasCustomDomain && !hasEnableRoot then appRaw
      else
        let appMap :=
          if hasEnableRoot then eraseKey appMap "enable_root_domain" else appMap
        if customDomain ≠ "" ∧ domainName ≠ "" then
          let pfx :=
            if goStrLen customDomain > goStrLen domainName ∧
               goStrSuffix customDomain (goStrLen domainName) = domainName then
              goStrTake customDomain (goStrLen customDomain - goStrLen domainName - 1)
            else customDomain
          let pfx :=
            if addEnvPfx ∧ env ≠ "" ∧ env ≠ "prod" then
              let envPfx := env ++ "."
              if goStrLen pfx > goStrLen envPfx ∧
                 goStrSuffix pfx (goStrLen envPfx) = envPfx then
                goStrTake pfx (goStrLen pfx - goStrLen envPfx - 1)
              else pfx
            else pfx
          let appMap :=
            if pfx ≠ "" then insertKey appMap "subdomain_prefix" (.str pfx)
            else appMap
          .map (eraseKey appMap "custom_domain")
        else .map appMap
  | _ => appRaw

/-- `migrateToV9` (migrations.go lines 440-547): simplify the Amplify domain
configuration of every app in `amplify_apps`. -/
def migrateToV9 (d : Doc) : Doc × Option String :=
  match lookupKey d "amplify_apps" with
  | none => (d, none)
  | some .null => (d, none)
  | some (.list amplifyApps) =>
      let domainName :=
        match getMap d "domain" with
        | some domainMap =>
            (match lookupKey domainMap "domain_name" with
             | some (.str s) => s
             | _ => "")
        | none => ""
      let addEnvPfx :=
        match getMap d "domain" with
        | some domainMap =>
            (match lookupKey domainMap "add_env_domain_prefix" with
             | some (.bool b) => b
             | _ => false)
        | none => false
      let env := match lookupKey d "env" with | some (.str s) => s | _ => ""
      (insertKey d "amplify_apps"
        (.list (amplifyApps.map (v9MigrateApp domainName env addEnvPfx))), none)
  | some _ => (d, none)

/-- The document/fixed-count core of `migrateToV11` (migrations.go lines
550-606): for every map-shaped service record carrying `container_port`, set
`host_port` to `container_port` when it is missing or different, counting the
records changed. -/
def migrateToV11Core (d : Doc) : Doc × Nat :=
  match lookupKey d "services" with
  | none => (d, 0)
  | some .null => (d, 0)
  | some (.list services) =>
      let results := services.map (fun serviceRaw =>
        match serviceRaw with
        | .map serviceMap =>
            (match lookupKey serviceMap "container_port" with
             | none => (serviceRaw, 0)
             | some containerPort =>
                 (match lookupKey serviceMap "host_port" with
                  | some hostPort =>
                      if hostPort = containerPort then (serviceRaw, 0)
                      else (Val.map (insertKey serviceMap "host_port" containerPort), 1)
                  | none =>
                      (Val.map (insertKey serviceMap "host_port" containerPort), 1)))
        | _ => (serviceRaw, 0))
      (insertKey d "services" (.list (results.map Prod.fst)),
       (results.map Prod.snd).sum)
  | some _ => (d, 0)

/-- `migrateToV11` as registered: always returns a nil error. -/
def migrateToV11 (d : Doc) : Doc × Option String :=
  ((migrateToV11Core d).1, none)

/-- `migrateToV12` (migrations.go lines 609-652): give the five RDS boolean
fields explicit defaults when absent.  (Go iterates `booleanDefaults` in
randomised map order; insertion order follows the source literal here, which
only affects the position of appended keys, not any lookup.) -/
def migrateToV12 (d : Doc) : Doc × Option String :=
  match lookupKey d "postgres" with
  | none => (d, none)
  | some .null => (d, none)
  | some (.map postgres) =>
      let postgres := addIfAbsent postgres "multi_az" (.bool false)
      let postgres := addIfAbsent postgres "storage_encrypted" (.bool true)
      let postgres := addIfAbsent postgres "deletion_protection" (.bool false)
      let postgres := addIfAbsent postgres "skip_final_snapshot" (.bool true)
      let postgres :=
        addIfAbsent postgres "iam_database_authentication_enabled" (.bool false)
      (insertKey d "postgres" (.map postgres), none)
  | some _ => (d, none)

/-- Registry entry for `migrateToV2`. -/
def migration2 : Migration :=
  { Version := 2,
    Description := "Add Aurora Serverless v2 support and ALB configuration",
    Apply := migrateToV2 }

/-- Registry entry for `migrateToV3`. -/
def migration3 : Migration :=
  { Version := 3, Description := "Add DNS management fields", Apply := migrateToV3 }

/-- Registry entry for `migrateToV4`. -/
def migration4 : Migration :=
  { Version := 4, Description := "Add backend scaling configuration",
    Apply := migrateToV4 }

/-- Registry entry for `migrateToV5`. -/
def migration5 : Migration :=
  { Version := 5, Description := "Add Account ID and AWS Profile fields",
    Apply := migrateToV5 }

/-- Registry entry for `migrateToV6`. -/
def migration6 : Migration :=
  { Version := 6, Description := "Add custom VPC configuration",
    Apply := migrateToV6 }

/-- Registry entry for `migrateToV7`. -/
def migration7 : Migration :=
  { Version := 7, Description := "Add ECR strategy configuration",
    Apply := migrateToV7 }

/-- Registry entry for `migrateToV8`. -/
def migration8 : Migration :=
  { Version := 8,
    Description := "Add ECR trusted accounts for cross-account access",
    Apply := migrateToV8 }

/-- Registry entry for `migrateToV9`. -/
def migration9 : Migration :=
  { Version := 9, Description := "Simplify Amplify domain configuration",
    Apply := migrateToV9 }

/-- Registry entry for `migrateV8ToV9` (the v10 step). -/
def migration10 : Migration :=
  { Version := 10, Description := "Add per-service ECR configuration",
    Apply := migrateV8ToV9 }

/-- Registry entry for `migrateToV11`. -/
def migration11 : Migration :=
  { Version := 11,
    Description := "Ensure host_port matches container_port for services (awsvpc compatibility)",
    Apply := migrateToV11 }

/-- Registry entry for `migrateToV12`. -/
def migration12 : Migration :=
  { Version := 12,
    Description := "Ensure all postgres boolean fields have explicit default values",
    Apply := migrateToV12 }

/-- `AllMigrations` (migrations.go lines 40-96). -/
def AllMigrations : List Migration :=
  [migration2, migration3, migration4, migration5, migration6, migration7,
   migration8, migration9, migration10, migration11, migration12]

/-- The loop of `applyMigrations` (migrations.go lines 663-669): run every
step whose target version exceeds the detected version, in registry order,
stopping at the first error with the wrapped message
`migration to v<N> failed: <err>`. -/
def applyMigrationsAux : List Migration → Int → Doc → Doc × Option String
  | [], _, d => (d, none)
  | migration :: rest, currentVersion, d =>
      if migration.Version > currentVersion then
        let r := migration.Apply d
        match r.2 with
        | none => applyMigrationsAux rest currentVersion r.1
        | some e =>
            (r.1, some ("migration to v" ++ toString migration.Version
                         ++ " failed: " ++ e))
      else applyMigrationsAux rest currentVersion d

/-- `applyMigrations` (migrations.go lines 655-676), generic in the registry:
no-op at or above `CurrentSchemaVersion`, otherwise run the loop and stamp
`schema_version` only on full success. -/
def applyMigrationsGen (migs : List Migration) (d : Doc) (currentVersion : Int) :
    Doc × Option String :=
  if currentVersion ≥ CurrentSchemaVersion then (d, none)
  else
    let r := applyMigrationsAux migs currentVersion d
    match r.2 with
    | some _ => r
    | none => (insertKey r.1 "schema_version" (.int CurrentSchemaVersion), none)

/-- `applyMigrations` over the real registry. -/
def applyMigrations (d : Doc) (currentVersion : Int) : Doc × Option String :=
  applyMigrationsGen AllMigrations d currentVersion

/-- The detect-then-migrate pipeline run by the loader and by
`MigrateYAMLFile`: detect the version, then apply migrations. -/
def runMigrationPipeline (d : Doc) : Doc × Option String :=
  applyMigrations d (detectSchemaVersion d)

/-!  ## The document loader (`loadEnvWithMigration`, migrations.go 690-768)

The file system is modelled as a partial map from paths to file contents;
`os.ReadFile`'s not-found error is modelled with its standard message
`open <path>: no such file or directory`, YAML encoding/decoding as opaque
`parse`/`marshal` parameters, and `CreateProjectBackup` (whose source lives
outside the migration file) is modelled from the spec: it snapshots the
original bytes to a distinct path in the backup directory and succeeds. -/

/-- The candidate paths tried by `loadEnvWithMigration`
(migrations.go lines 694-699). -/
def candidatePaths (name : String) : List String :=
  [name ++ ".yaml",
   "project/" ++ name ++ ".yaml",
   "../../project/" ++ name ++ ".yaml",
   "../" ++ name ++ ".yaml"]

/-- The message of `os.ReadFile`'s error for a missing file. -/
def readErrMsg (path : String) : String :=
  "open " ++ path ++ ": no such file or directory"

/-- The read loop of `loadEnvWithMigration` (migrations.go lines 705-714):
first readable candidate wins; `lastErr` keeps only the most recent failure. -/
def resolveEnvFile (fs : String → Option String) :
    List String → Option String → Option (String × String) × Option String
  | [], lastErr => (none, lastErr)
  | path :: rest, lastErr =>
      match fs path with
      | some contents => (some (path, contents), lastErr)
      | none => resolveEnvFile fs rest (some (readErrMsg path))

/-- `loadEnvWithMigration` (migrations.go lines 690-768), generic in the
migration registry and in the YAML codec: resolve the file, parse it, detect
the version, and when behind: back up, migrate, and only after a fully
successful migration write the migrated bytes back to the resolved path.
Returns the bytes that would be decoded into the typed `Env`, plus the file
system after the call. -/
def loadEnvWithMigrationGen (migs : List Migration)
    (parse : String → Option Doc) (marshal : Doc → String)
    (fs : String → Option String) (name : String) :
    Except String String × (String → Option String) :=
  match resolveEnvFile fs (candidatePaths name) none with
  | (none, lastErr) =>
      (.error ("error reading YAML file from any location: " ++ lastErr.getD ""), fs)
  | (some (yamlPath, data), _) =>
      match parse data with
      | none => (.error "error unmarshaling YAML", fs)
      | some dataMap =>
          let currentVersion := detectSchemaVersion dataMap
          if currentVersion < CurrentSchemaVersion then
            -- Modelled from the spec: `CreateProjectBackup` writes a
            -- timestamped copy of the original under the backup directory
            -- (a path distinct from the original) and succeeds.
            let fs₁ := fun q =>
              if q = "backup/" ++ yamlPath then some data else fs q
            let r := applyMigrationsGen migs dataMap currentVersion
            match r.2 with
            | some e => (.error ("migration failed: " ++ e), fs₁)
            | none =>
                let migratedData := marshal r.1
                let fs₂ := fun q =>
                  if q = yamlPath then some migratedData else fs₁ q
                (.ok migratedData, fs₂)
          else (.ok data, fs)

/-- `loadEnvWithMigration` over the real registry. -/
def loadEnvWithMigration (parse : String → Option Doc) (marshal : Doc → String)
    (fs : String → Option String) (name : String) :
    Except String String × (String → Option String) :=
  loadEnvWithMigrationGen AllMigrations parse marshal fs name

/-!  ## Preservation and frame lemmas for the check-then-set combinators  -/

theorem addIfAbsent_preserve {m : Doc} {k : String} {v : Val} (k₀ : String)
    (v₀ : Val) (h : lookupKey m k = some v) :
    lookupKey (addIfAbsent m k₀ v₀) k = some v := by
  unfold addIfAbsent
  by_cases hk : k₀ = k
  · subst hk; rw [h]; simpa using h
  · split
    · exact h
    · rw [lookupKey_insertKey_ne _ _ _ _ hk]; exact h

theorem addIfAbsent_frame (m : Doc) (k₀ : String) (v₀ : Val) (k : String)
    (hk : k₀ ≠ k) : lookupKey (addIfAbsent m k₀ v₀) k = lookupKey m k := by
  unfold addIfAbsent
  split
  · rfl
  · exact lookupKey_insertKey_ne _ _ _ _ hk

theorem addIfAbsent_isSome (m : Doc) (k₀ : String) (v₀ : Val) :
    (lookupKey (addIfAbsent m k₀ v₀) k₀).isSome := by
  unfold addIfAbsent
  split
  · assumption
  · simp [lookupKey_insertKey_self]

theorem fixIntZero_preserve {m : Doc} {k : String} {v : Val} (k₀ : String)
    (dv : Int) (h : lookupKey m k = some v) (hx : ¬(k = k₀ ∧ v = .int 0)) :
    lookupKey (fixIntZero m k₀ dv) k = some v := by
  unfold fixIntZero
  by_cases hk : k₀ = k
  · subst hk
    rw [h]
    match v, h with
    | .int n, h =>
        have hn : ¬ n = 0 := fun e => hx ⟨rfl, by rw [e]⟩
        simpa [hn] using h
    | .null, h => exact h
    | .bool b, h => exact h
    | .float a b, h => exact h
    | .str s, h => exact h
    | .list xs, h => exact h
    | .map mm, h => exact h
  · split
    · rw [lookupKey_insertKey_ne _ _ _ _ hk]; exact h
    · split
      · rw [lookupKey_insertKey_ne _ _ _ _ hk]; exact h
      · exact h
    · exact h

theorem fixIntZero_frame (m : Doc) (k₀ : String) (dv : Int) (k : String)
    (hk : k₀ ≠ k) : lookupKey (fixIntZero m k₀ dv) k = lookupKey m k := by
  unfold fixIntZero
  split
  · exact lookupKey_insertKey_ne _ _ _ _ hk
  · split
    · exact lookupKey_insertKey_ne _ _ _ _ hk
    · rfl
  · rfl

theorem fixEmptyStr_preserve {m : Doc} {k : String} {v : Val} (k₀ : String)
    (dv : String) (h : lookupKey m k = some v) (hx : ¬(k = k₀ ∧ v = .str "")) :
    lookupKey (fixEmptyStr m k₀ dv) k = some v := by
  unfold fixEmptyStr
  by_cases hk : k₀ = k
  · subst hk
    rw [h]
    have hv : ¬ v = .str "" := fun e => hx ⟨rfl, e⟩
    simpa [hv] using h
  · split
    · rw [lookupKey_insertKey_ne _ _ _ _ hk]; exact h
    · split
      · rw [lookupKey_insertKey_ne _ _ _ _ hk]; exact h
      · exact h

theorem fixEmptyStr_frame (m : Doc) (k₀ : String) (dv : String) (k : String)
    (hk : k₀ ≠ k) : lookupKey (fixEmptyStr m k₀ dv) k = lookupKey m k := by
  unfold fixEmptyStr
  split
  · exact lookupKey_insertKey_ne _ _ _ _ hk
  · split
    · exact lookupKey_insertKey_ne _ _ _ _ hk
    · rfl

/-!  ## Every registered mutation function returns a nil error  -/

theorem migrateToV2_err (d : Doc) : (migrateToV2 d).2 = none := rfl

theorem migrateToV3_err (d : Doc) : (migrateToV3 d).2 = none := by
  unfold migrateToV3; split <;> rfl

theorem migrateToV4_err (d : Doc) : (migrateToV4 d).2 = none := by
  unfold migrateToV4; split <;> rfl

theorem migrateToV5_err (d : Doc) : (migrateToV5 d).2 = none := rfl

theorem migrateToV6_err (d : Doc) : (migrateToV6 d).2 = none := rfl

theorem migrateToV7_err (d : Doc) : (migrateToV7 d).2 = none := rfl

theorem migrateToV8_err (d : Doc) : (migrateToV8 d).2 = none := rfl

theorem migrateV8ToV9_err (d : Doc) : (migrateV8ToV9 d).2 = none := rfl

theorem migrateToV9_err (d : Doc) : (migrateToV9 d).2 = none := by
  unfold migrateToV9; split <;> rfl

theorem migrateToV11_err (d : Doc) : (migrateToV11 d).2 = none := rfl

theorem migrateToV12_err (d : Doc) : (migrateToV12 d).2 = none := by
  unfold migrateToV12; split <;> rfl

theorem allMigrations_apply_err : ∀ m ∈ AllMigrations, ∀ d, (m.Apply d).2 = none := by
  intro m hm
  fin_cases hm
  · exact migrateToV2_err
  · exact migrateToV3_err
  · exact migrateToV4_err
  · exact migrateToV5_err
  · exact migrateToV6_err
  · exact migrateToV7_err
  · exact migrateToV8_err
  · exact migrateToV9_err
  · exact migrateV8ToV9_err
  · exact migrateToV11_err
  · exact migrateToV12_err

theorem applyMigrationsAux_err_none (migs : List Migration)
    (h : ∀ m ∈ migs, ∀ d, (m.Apply d).2 = none) :
    ∀ (cur : Int) (d : Doc), (applyMigrationsAux migs cur d).2 = none := by
  induction migs with
  | nil => intro cur d; rfl
  | cons m rest ih =>
      intro cur d
      simp only [applyMigrationsAux]
      split
      · have hm := h m (List.mem_cons_self m rest) d
        simp only [hm]
        exact ih (fun m' hm' => h m' (List.mem_cons_of_mem _ hm')) cur _
      · exact ih (fun m' hm' => h m' (List.mem_cons_of_mem _ hm')) cur d

theorem applyMigrationsAux_all_err (cur : Int) (d : Doc) :
    (applyMigrationsAux AllMigrations cur d).2 = none :=
  applyMigrationsAux_err_none AllMigrations allMigrations_apply_err cur d

theorem applyMigrations_ge (d : Doc) (cur : Int) (h : cur ≥ CurrentSchemaVersion) :
    applyMigrations d cur = (d, none) := by
  unfold applyMigrations applyMigrationsGen
  rw [if_pos h]

theorem applyMigrations_lt (d : Doc) (cur : Int) (h : cur < CurrentSchemaVersion) :
    applyMigrations d cur =
      (insertKey (applyMigrationsAux AllMigrations cur d).1 "schema_version"
        (.int CurrentSchemaVersion), none) := by
  unfold applyMigrations applyMigrationsGen
  rw [if_neg (not_le.mpr h)]
  simp only [applyMigrationsAux_all_err]

theorem applyMigrations_snd_none (d : Doc) (cur : Int) :
    (applyMigrations d cur).2 = none := by
  by_cases h : cur ≥ CurrentSchemaVersion
  · rw [applyMigrations_ge d cur h]
  · rw [applyMigrations_lt d cur (not_le.mp h)]

theorem detectSchemaVersion_int (d : Doc) (v : Int)
    (h : lookupKey d "schema_version" = some (.int v)) (hv : v ≠ 6) :
    detectSchemaVersion d = v := by
  unfold detectSchemaVersion
  rw [h]
  simp [hv]

theorem detectSchemaVersion_stamped (d : Doc) :
    detectSchemaVersion (insertKey d "schema_version" (.int CurrentSchemaVersion))
      = CurrentSchemaVersion :=
  detectSchemaVersion_int _ _ (lookupKey_insertKey_self d _ _) (by decide)

theorem fixEmptyStrPresent_frame (m : Doc) (k₀ : String) (dv : String)
    (k : String) (hk : k₀ ≠ k) :
    lookupKey (fixEmptyStrPresent m k₀ dv) k = lookupKey m k := by
  unfold fixEmptyStrPresent
  split
  · split
    · exact lookupKey_insertKey_ne _ _ _ _ hk
    · rfl
  · rfl

theorem eraseIfPresent_self (m : Doc) (k : String) :
    lookupKey (eraseIfPresent m k) k = none := by
  unfold eraseIfPresent
  split
  · exact lookupKey_eraseKey_self m k
  · rename_i h
    exact Option.not_isSome_iff_eq_none.mp h

theorem eraseIfPresent_frame (m : Doc) (k₀ k : String) (hk : k₀ ≠ k) :
    lookupKey (eraseIfPresent m k₀) k = lookupKey m k := by
  unfold eraseIfPresent
  split
  · exact lookupKey_eraseKey_ne _ _ _ hk
  · rfl

theorem mapListKey_frame (d : Doc) (key : String) (f : List Val → List Val)
    (k : String) (hk : key ≠ k) :
    lookupKey (mapListKey d key f) k = lookupKey d k := by
  unfold mapListKey
  split
  · exact lookupKey_insertKey_ne _ _ _ _ hk
  · rfl

theorem getMap_insertKey_map_self (d : Doc) (k : String) (m : Doc) :
    getMap (insertKey d k (.map m)) k = some m := by
  simp [getMap, lookupKey_insertKey_self]

/-!  ## Per-step frame lemmas on top-level keys  -/

theorem migrateToV2_frame (d : Doc) (k : String)
    (h1 : "postgres" ≠ k) (h2 : "alb" ≠ k) :
    lookupKey (migrateToV2 d).1 k = lookupKey d k := by
  simp only [migrateToV2]
  rw [addIfAbsent_frame _ _ _ _ h2]
  split
  · split
    · rfl
    · exact lookupKey_insertKey_ne _ _ _ _ h1
  · rfl

theorem migrateToV3_frame (d : Doc) (k : String) (h1 : "domain" ≠ k) :
    lookupKey (migrateToV3 d).1 k = lookupKey d k := by
  unfold migrateToV3
  split
  · rfl
  · exact lookupKey_insertKey_ne _ _ _ _ h1

theorem migrateToV4_frame (d : Doc) (k : String) (h1 : "workload" ≠ k) :
    lookupKey (migrateToV4 d).1 k = lookupKey d k := by
  unfold migrateToV4
  split
  · rfl
  · exact lookupKey_insertKey_ne _ _ _ _ h1

theorem migrateToV5_frame (d : Doc) (k : String)
    (h1 : "account_id" ≠ k) (h2 : "aws_profile" ≠ k) :
    lookupKey (migrateToV5 d).1 k = lookupKey d k := by
  simp only [migrateToV5]
  rw [addIfAbsent_frame _ _ _ _ h2, addIfAbsent_frame _ _ _ _ h1]

theorem migrateToV6_frame (d : Doc) (k : String)
    (h1 : "use_default_vpc" ≠ k) (h2 : "vpc_cidr" ≠ k) (h3 : "az_count" ≠ k)
    (h4 : "create_private_subnets" ≠ k) (h5 : "enable_nat_gateway" ≠ k) :
    lookupKey (migrateToV6 d).1 k = lookupKey d k := by
  simp only [migrateToV6]
  rw [eraseIfPresent_frame _ _ _ h5, eraseIfPresent_frame _ _ _ h4,
      eraseIfPresent_frame _ _ _ h3, fixEmptyStrPresent_frame _ _ _ _ h2,
      addIfAbsent_frame _ _ _ _ h1]

theorem migrateToV7_frame (d : Doc) (k : String)
    (h1 : "ecr_strategy" ≠ k) (h2 : "ecr_account_id" ≠ k)
    (h3 : "ecr_account_region" ≠ k) :
    lookupKey (migrateToV7 d).1 k = lookupKey d k := by
  simp only [migrateToV7]
  rw [addIfAbsent_frame _ _ _ _ h3, addIfAbsent_frame _ _ _ _ h2]
  split
  · rfl
  · split
    · exact lookupKey_insertKey_ne _ _ _ _ h1
    · split
      · split
        · exact lookupKey_insertKey_ne _ _ _ _ h1
        · split <;> exact lookupKey_insertKey_ne _ _ _ _ h1
      · exact lookupKey_insertKey_ne _ _ _ _ h1

theorem migrateToV8_frame (d : Doc) (k : String)
    (h1 : "ecr_trusted_accounts" ≠ k) :
    lookupKey (migrateToV8 d).1 k = lookupKey d k := by
  simp only [migrateToV8]
  exact addIfAbsent_frame _ _ _ _ h1

theorem migrateToV9_frame (d : Doc) (k : String) (h1 : "amplify_apps" ≠ k) :
    lookupKey (migrateToV9 d).1 k = lookupKey d k := by
  unfold migrateToV9
  split
  · rfl
  · rfl
  · exact lookupKey_insertKey_ne _ _ _ _ h1
  · rfl

theorem migrateV8ToV9_frame (d : Doc) (k : String)
    (h1 : "services" ≠ k) (h2 : "event_processor_tasks" ≠ k)
    (h3 : "scheduled_tasks" ≠ k) :
    lookupKey (migrateV8ToV9 d).1 k = lookupKey d k := by
  simp only [migrateV8ToV9]
  rw [mapListKey_frame _ _ _ _ h3, mapListKey_frame _ _ _ _ h2,
      mapListKey_frame _ _ _ _ h1]

theorem migrateToV11_frame (d : Doc) (k : String) (h1 : "services" ≠ k) :
    lookupKey (migrateToV11 d).1 k = lookupKey d k := by
  unfold migrateToV11 migrateToV11Core
  split
  · rfl
  · rfl
  · exact lookupKey_insertKey_ne _ _ _ _ h1
  · rfl

theorem migrateToV12_frame (d : Doc) (k : String) (h1 : "postgres" ≠ k) :
    lookupKey (migrateToV12 d).1 k = lookupKey d k := by
  unfold migrateToV12
  split
  · rfl
  · rfl
  · exact lookupKey_insertKey_ne _ _ _ _ h1
  · rfl

/-- What `migrateToV6` guarantees about its own keys: `use_default_vpc`
becomes present, an already-present value of it is kept, and the three
deprecated keys are gone. -/
theorem migrateToV6_spec (d : Doc) :
    (lookupKey (migrateToV6 d).1 "use_default_vpc").isSome ∧
    (∀ v, lookupKey d "use_default_vpc" = some v →
        lookupKey (migrateToV6 d).1 "use_default_vpc" = some v) ∧
    lookupKey (migrateToV6 d).1 "az_count" = none ∧
    lookupKey (migrateToV6 d).1 "create_private_subnets" = none ∧
    lookupKey (migrateToV6 d).1 "enable_nat_gateway" = none := by
  simp only [migrateToV6]
  refine ⟨?_, ?_, ?_, ?_, ?_⟩
  · rw [eraseIfPresent_frame _ _ _ (by decide), eraseIfPresent_frame _ _ _ (by decide),
        eraseIfPresent_frame _ _ _ (by decide), fixEmptyStrPresent_frame _ _ _ _ (by decide)]
    exact addIfAbsent_isSome d _ _
  · intro v hv
    rw [eraseIfPresent_frame _ _ _ (by decide), eraseIfPresent_frame _ _ _ (by decide),
        eraseIfPresent_frame _ _ _ (by decide), fixEmptyStrPresent_frame _ _ _ _ (by decide)]
    exact addIfAbsent_preserve _ _ hv
  · rw [eraseIfPresent_frame _ _ _ (by decide), eraseIfPresent_frame _ _ _ (by decide)]
    exact eraseIfPresent_self _ _
  · rw [eraseIfPresent_frame _ _ _ (by decide)]
    exact eraseIfPresent_self _ _
  · exact eraseIfPresent_self _ _

theorem applyMigrationsAux_cons_skip (m : Migration) (rest : List Migration)
    (cur : Int) (d : Doc) (h : ¬ m.Version > cur) :
    applyMigrationsAux (m :: rest) cur d = applyMigrationsAux rest cur d := by
  simp only [applyMigrationsAux]
  rw [if_neg h]

theorem applyMigrationsAux_cons_run (m : Migration) (rest : List Migration)
    (cur : Int) (d : Doc) (h : m.Version > cur) (h2 : (m.Apply d).2 = none) :
    applyMigrationsAux (m :: rest) cur d =
      applyMigrationsAux rest cur (m.Apply d).1 := by
  simp only [applyMigrationsAux]
  rw [if_pos h]
  simp only [h2]

theorem applyMigrationsAux_from5 (d : Doc) :
    applyMigrationsAux AllMigrations 5 d =
      ((migrateToV12 ((migrateToV11 ((migrateV8ToV9 ((migrateToV9 ((migrateToV8
        ((migrateToV7 ((migrateToV6 d).1)).1)).1)).1)).1)).1)).1, none) := by
  have skip2 : ∀ x : Doc, applyMigrationsAux AllMigrations 5 x =
      applyMigrationsAux [migration3, migration4, migration5, migration6,
        migration7, migration8, migration9, migration10, migration11,
        migration12] 5 x :=
    fun x => applyMigrationsAux_cons_skip _ _ _ _ (by decide)
  have skip3 : ∀ x : Doc, applyMigrationsAux [migration3, migration4,
      migration5, migration6, migration7, migration8, migration9, migration10,
      migration11, migration12] 5 x =
      applyMigrationsAux [migration4, migration5, migration6, migration7,
        migration8, migration9, migration10, migration11, migration12] 5 x :=
    fun x => applyMigrationsAux_cons_skip _ _ _ _ (by decide)
  have skip4 : ∀ x : Doc, applyMigrationsAux [migration4, migration5,
      migration6, migration7, migration8, migration9, migration10, migration11,
      migration12] 5 x =
      applyMigrationsAux [migration5, migration6, migration7, migration8,
        migration9, migration10, migration11, migration12] 5 x :=
    fun x => applyMigrationsAux_cons_skip _ _ _ _ (by decide)
  have skip5 : ∀ x : Doc, applyMigrationsAux [migration5, migration6,
      migration7, migration8, migration9, migration10, migration11,
      migration12] 5 x =
      applyMigrationsAux [migration6, migration7, migration8, migration9,
        migration10, migration11, migration12] 5 x :=
    fun x => applyMigrationsAux_cons_skip _ _ _ _ (by decide)
  have run6 : ∀ x : Doc, applyMigrationsAux [migration6, migration7,
      migration8, migration9, migration10, migration11, migration12] 5 x =
      applyMigrationsAux [migration7, migration8, migration9, migration10,
        migration11, migration12] 5 (migrateToV6 x).1 :=
    fun x => applyMigrationsAux_cons_run _ _ _ _ (by decide) (migrateToV6_err x)
  have run7 : ∀ x : Doc, applyMigrationsAux [migration7, migration8,
      migration9, migration10, migration11, migration12] 5 x =
      applyMigrationsAux [migration8, migration9, migration10, migration11,
        migration12] 5 (migrateToV7 x).1 :=
    fun x => applyMigrationsAux_cons_run _ _ _ _ (by decide) (migrateToV7_err x)
  have run8 : ∀ x : Doc, applyMigrationsAux [migration8, migration9,
      migration10, migration11, migration12] 5 x =
      applyMigrationsAux [migration9, migration10, migration11, migration12] 5
        (migrateToV8 x).1 :=
    fun x => applyMigrationsAux_cons_run _ _ _ _ (by decide) (migrateToV8_err x)
  have run9 : ∀ x : Doc, applyMigrationsAux [migration9, migration10,
      migration11, migration12] 5 x =
      applyMigrationsAux [migration10, migration11, migration12] 5
        (migrateToV9 x).1 :=
    fun x => applyMigrationsAux_cons_run _ _ _ _ (by decide) (migrateToV9_err x)
  have run10 : ∀ x : Doc, applyMigrationsAux [migration10, migration11,
      migration12] 5 x =
      applyMigrationsAux [migration11, migration12] 5 (migrateV8ToV9 x).1 :=
    fun x => applyMigrationsAux_cons_run _ _ _ _ (by decide) (migrateV8ToV9_err x)
  have run11 : ∀ x : Doc, applyMigrationsAux [migration11, migration12] 5 x =
      applyMigrationsAux [migration12] 5 (migrateToV11 x).1 :=
    fun x => applyMigrationsAux_cons_run _ _ _ _ (by decide) (migrateToV11_err x)
  have run12 : ∀ x : Doc, applyMigrationsAux [migration12] 5 x =
      applyMigrationsAux [] 5 (migrateToV12 x).1 :=
    fun x => applyMigrationsAux_cons_run _ _ _ _ (by decide) (migrateToV12_err x)
  rw [skip2, skip3, skip4, skip5, run6, run7, run8, run9, run10, run11, run12]
  rfl

theorem applyMigrations_from5 (d : Doc) :
    applyMigrations d 5 =
      (insertKey ((migrateToV12 ((migrateToV11 ((migrateV8ToV9 ((migrateToV9
        ((migrateToV8 ((migrateToV7 ((migrateToV6 d).1)).1)).1)).1)).1)).1)).1)
        "schema_version" (.int CurrentSchemaVersion), none) := by
  rw [applyMigrations_lt d 5 (by decide), applyMigrationsAux_from5]

/-- C2: a document stamped `schema_version = 6` that still carries one of the
three deprecated VPC keys is detected as version 5, and the migration run
from there leaves `use_default_vpc` present (keeping an already-present
value) and removes all three deprecated keys. -/
theorem v6_stamp_redetected_and_rerun (d : Doc)
    (h6 : lookupKey d "schema_version" = some (.int 6))
    (hdep : (lookupKey d "az_count").isSome ∨
            (lookupKey d "create_private_subnets").isSome ∨
            (lookupKey d "enable_nat_gateway").isSome) :
    detectSchemaVersion d = 5 ∧
    (lookupKey (runMigrationPipeline d).1 "use_default_vpc").isSome ∧
    (∀ v, lookupKey d "use_default_vpc" = some v →
        lookupKey (runMigrationPipeline d).1 "use_default_vpc" = some v) ∧
    lookupKey (runMigrationPipeline d).1 "az_count" = none ∧
    lookupKey (runMigrationPipeline d).1 "create_private_subnets" = none ∧
    lookupKey (runMigrationPipeline d).1 "enable_nat_gateway" = none := by
  have hdet : detectSchemaVersion d = 5 := by
    unfold detectSchemaVersion
    rw [h6]
    rcases hdep with h | h | h
    · simp [h]
    · by_cases h1 : (lookupKey d "az_count").isSome <;> simp [h, h1]
    · by_cases h1 : (lookupKey d "az_count").isSome <;>
        by_cases h2 : (lookupKey d "create_private_subnets").isSome <;>
          simp [h, h1, h2]
  refine ⟨hdet, ?_⟩
  unfold runMigrationPipeline
  rw [hdet, applyMigrations_from5 d]
  obtain ⟨hA, hB, hC, hD, hE⟩ := migrateToV6_spec d
  have chainFrame : ∀ k : String, "ecr_strategy" ≠ k → "ecr_account_id" ≠ k →
      "ecr_account_region" ≠ k → "ecr_trusted_accounts" ≠ k →
      "amplify_apps" ≠ k → "services" ≠ k → "event_processor_tasks" ≠ k →
      "scheduled_tasks" ≠ k → "postgres" ≠ k → "schema_version" ≠ k →
      lookupKey (insertKey ((migrateToV12 ((migrateToV11 ((migrateV8ToV9
          ((migrateToV9 ((migrateToV8 ((migrateToV7
          ((migrateToV6 d).1)).1)).1)).1)).1)).1)).1)
        "schema_version" (.int CurrentSchemaVersion)) k
        = lookupKey (migrateToV6 d).1 k := by
    intro k n1 n2 n3 n4 n5 n6 n7 n8 n9 n10
    rw [lookupKey_insertKey_ne _ _ _ _ n10, migrateToV12_frame _ _ n9,
        migrateToV11_frame _ _ n6, migrateV8ToV9_frame _ _ n6 n7 n8,
        migrateToV9_frame _ _ n5, migrateToV8_frame _ _ n4,
        migrateToV7_frame _ _ n1 n2 n3]
  refine ⟨?_, ?_, ?_, ?_, ?_⟩
  · rw [chainFrame _ (by decide) (by decide) (by decide) (by decide) (by decide)
        (by decide) (by decide) (by decide) (by decide) (by decide)]
    exact hA
  · intro v hv
    rw [chainFrame _ (by decide) (by decide) (by decide) (by decide) (by decide)
        (by decide) (by decide) (by decide) (by decide) (by decide)]
    exact hB v hv
  · rw [chainFrame _ (by decide) (by decide) (by decide) (by decide) (by decide)
        (by decide) (by decide) (by decide) (by decide) (by decide)]
    exact hC
  · rw [chainFrame _ (by decide) (by decide) (by decide) (by decide) (by decide)
        (by decide) (by decide) (by decide) (by decide) (by decide)]
    exact hD
  · rw [chainFrame _ (by decide) (by decide) (by decide) (by decide) (by decide)
        (by decide) (by decide) (by decide) (by decide) (by decide)]
    exact hE

/-- Witness for C2 at a concrete stamped document carrying `az_count` and a
user-set `use_default_vpc = false`. -/
theorem v6_stamp_redetected_and_rerun_witness :
    detectSchemaVersion
        [("schema_version", .int 6), ("az_count", .int 2),
         ("use_default_vpc", .bool false)] = 5 ∧
    lookupKey (runMigrationPipeline
        [("schema_version", .int 6), ("az_count", .int 2),
         ("use_default_vpc", .bool false)]).1 "use_default_vpc"
      = some (.bool false) ∧
    lookupKey (runMigrationPipeline
        [("schema_version", .int 6), ("az_count", .int 2),
         ("use_default_vpc", .bool false)]).1 "az_count" = none := by
  have h := v6_stamp_redetected_and_rerun
    [("schema_version", .int 6), ("az_count", .int 2),
     ("use_default_vpc", .bool false)]
    (by decide) (Or.inl (by decide))
  exact ⟨h.1, h.2.2.1 (.bool false) (by decide), h.2.2.2.1⟩

theorem runMigrationPipeline_ge (d : Doc)
    (h : detectSchemaVersion d ≥ CurrentSchemaVersion) :
    runMigrationPipeline d = (d, none) := by
  unfold runMigrationPipeline
  exact applyMigrations_ge d _ h

/-- C5 counterexample: a document already stamped with version 14 is returned
unchanged by the first pipeline run, so the second run detects 14, not
`CurrentSchemaVersion`. -/
theorem pipeline_second_run_detect_counterexample :
    detectSchemaVersion (runMigrationPipeline [("schema_version", .int 14)]).1 = 14 ∧
    (14 : Int) ≠ CurrentSchemaVersion := by
  exact ⟨by decide, by decide⟩

/-- C5 (amended): `applyMigrations` is a no-op at or above
`CurrentSchemaVersion`; when the first run actually migrated (detected
version below current), the second run detects exactly
`CurrentSchemaVersion`; and in all cases a second pipeline run performs zero
mutations and returns the first run's output unchanged with no error. -/
theorem pipeline_noop_and_idempotent :
    (∀ (d : Doc) (cur : Int), cur ≥ CurrentSchemaVersion →
        applyMigrations d cur = (d, none)) ∧
    (∀ d : Doc, detectSchemaVersion d < CurrentSchemaVersion →
        detectSchemaVersion (runMigrationPipeline d).1 = CurrentSchemaVersion) ∧
    (∀ d : Doc, runMigrationPipeline (runMigrationPipeline d).1 =
        ((runMigrationPipeline d).1, none)) := by
  refine ⟨applyMigrations_ge, fun d h => ?_, fun d => ?_⟩
  · unfold runMigrationPipeline
    rw [applyMigrations_lt d _ h]
    exact detectSchemaVersion_stamped _
  · by_cases h : detectSchemaVersion d ≥ CurrentSchemaVersion
    · have h1 := runMigrationPipeline_ge d h
      rw [h1]
      exact h1
    · have h2 : detectSchemaVersion (runMigrationPipeline d).1 = CurrentSchemaVersion := by
        unfold runMigrationPipeline
        rw [applyMigrations_lt d _ (lt_of_not_ge h)]
        exact detectSchemaVersion_stamped _
      show applyMigrations (runMigrationPipeline d).1
          (detectSchemaVersion (runMigrationPipeline d).1)
        = ((runMigrationPipeline d).1, none)
      rw [h2]
      exact applyMigrations_ge _ _ (le_refl _)

/-- Witness for C5's amended statement at concrete documents. -/
theorem pipeline_noop_and_idempotent_witness :
    applyMigrations [("schema_version", .int 12)]
        (detectSchemaVersion [("schema_version", .int 12)])
      = ([("schema_version", .int 12)], none) ∧
    detectSchemaVersion (runMigrationPipeline []).1 = CurrentSchemaVersion ∧
    runMigrationPipeline (runMigrationPipeline []).1 =
      ((runMigrationPipeline []).1, none) :=
  ⟨pipeline_noop_and_idempotent.1 _ _ (by decide),
   pipeline_noop_and_idempotent.2.1 [] (by decide),
   pipeline_noop_and_idempotent.2.2 []⟩

/-- C10: every mutation function registered in `AllMigrations` returns a nil
error on every document, and consequently `applyMigrations` never returns an
error. -/
theorem allMigrations_never_error :
    (∀ i : Fin AllMigrations.length, ∀ d : Doc,
        ((AllMigrations.get i).Apply d).2 = none) ∧
    (∀ (d : Doc) (cur : Int), (applyMigrations d cur).2 = none) := by
  refine ⟨fun i d => ?_, applyMigrations_snd_none⟩
  exact allMigrations_apply_err _ (List.get_mem _ i.1 i.2) d

/-- C3: at the spec's own example (base domain `example.com`, env `dev`,
env-prefix enabled, `custom_domain = "app.dev.example.com"`), `migrateToV9`
produces `subdomain_prefix = "app.dev"`, not the documented `"app"`: the Go
code checks for `env ++ "."` as a *suffix* of the remainder `"app.dev"`,
which can never match, so the environment segment is never stripped.
`custom_domain` is removed as documented. -/
theorem migrateToV9_env_strip_divergence :
    (migrateToV9
      [("env", .str "dev"),
       ("domain", .map [("domain_name", .str "example.com"),
                        ("add_env_domain_prefix", .bool true)]),
       ("amplify_apps",
        .list [.map [("custom_domain", .str "app.dev.example.com")]])]).1
    = [("env", .str "dev"),
       ("domain", .map [("domain_name", .str "example.com"),
                        ("add_env_domain_prefix", .bool true)]),
       ("amplify_apps", .list [.map [("subdomain_prefix", .str "app.dev")]])] ∧
    ("app.dev" : String) ≠ "app" :=
  ⟨by decide, by decide⟩

/-- C4: when `custom_domain = "totallyunrelated.net"` is not suffixed by the
base domain `example.com`, `migrateToV9` still enters its parse branch (both
strings are non-empty), stores the whole unparsed value as
`subdomain_prefix`, and deletes `custom_domain` — instead of leaving the
legacy field untouched as the spec and the code's own comment describe. -/
theorem migrateToV9_unrelated_domain_divergence :
    (migrateToV9
      [("domain", .map [("domain_name", .str "example.com")]),
       ("amplify_apps",
        .list [.map [("custom_domain", .str "totallyunrelated.net")]])]).1
    = [("domain", .map [("domain_name", .str "example.com")]),
       ("amplify_apps",
        .list [.map [("subdomain_prefix", .str "totallyunrelated.net")]])] := by
  decide

/-- C8: on the spec's three-service scenario (matching ports, mismatched
host port, missing host port) the v11 step leaves every record with
`host_port` equal to `container_port` and reports a fixed-count of exactly 2. -/
theorem migrateToV11_port_sync_scenario :
    migrateToV11Core
      [("services", .list
        [.map [("name", .str "api"), ("container_port", .int 80),
               ("host_port", .int 80)],
         .map [("name", .str "worker"), ("container_port", .int 8080),
               ("host_port", .int 3000)],
         .map [("name", .str "batch"), ("container_port", .int 9090)]])]
    = ([("services", .list
        [.map [("name", .str "api"), ("container_port", .int 80),
               ("host_port", .int 80)],
         .map [("name", .str "worker"), ("container_port", .int 8080),
               ("host_port", .int 8080)],
         .map [("name", .str "batch"), ("container_port", .int 9090),
               ("host_port", .int 9090)]])], 2) := by
  decide

/-- The spec's notion of a structural marker: a field inside a named sub-map
whose presence identifies a schema version; an absent or non-map-shaped
sub-map means the marker is absent. -/
def structuralMarker (d : Doc) (sub k : String) : Bool :=
  match getMap d sub with
  | some w => (lookupKey w k).isSome
  | none => false

/-- C7: with no `schema_version` key, detection walks the markers newest to
oldest — `account_id` ⇒ 5, `workload.backend_desired_count` ⇒ 4,
`domain.zone_id` ⇒ 3, `postgres.aurora` ⇒ 2, otherwise 1 — and a sub-map
that is absent or not map-shaped counts as the marker being absent (the
embedding is total, so no lookup can panic). -/
theorem detect_fallback_chain (d : Doc)
    (h : lookupKey d "schema_version" = none) :
    detectSchemaVersion d =
      (if (lookupKey d "account_id").isSome then 5
       else if structuralMarker d "workload" "backend_desired_count" then 4
       else if structuralMarker d "domain" "zone_id" then 3
       else if structuralMarker d "postgres" "aurora" then 2
       else 1) ∧
    (∀ sub k, lookupKey d sub = none → structuralMarker d sub k = false) ∧
    (∀ sub k v, lookupKey d sub = some v → (∀ m, v ≠ Val.map m) →
        structuralMarker d sub k = false) := by
  refine ⟨?_, ?_, ?_⟩
  · unfold detectSchemaVersion structuralMarker
    rw [h]
  · intro sub k hs
    simp [structuralMarker, getMap, hs]
  · intro sub k v hs hv
    unfold structuralMarker getMap
    rw [hs]
    cases v
    case map m => exact absurd rfl (hv m)
    all_goals rfl

/-- Witness for C7: no version stamp, a non-map `workload`, and an `aurora`
marker inside `postgres` yield detected version 2. -/
theorem detect_fallback_chain_witness :
    detectSchemaVersion
        [("workload", .str "oops"), ("postgres", .map [("aurora", .bool true)])]
      = 2 ∧
    structuralMarker
        [("workload", .str "oops"), ("postgres", .map [("aurora", .bool true)])]
        "workload" "backend_desired_count" = false :=
  ⟨((detect_fallback_chain
      [("workload", .str "oops"), ("postgres", .map [("aurora", .bool true)])]
      (by decide)).1).trans (by decide),
   (detect_fallback_chain
      [("workload", .str "oops"), ("postgres", .map [("aurora", .bool true)])]
      (by decide)).2.2 "workload" "backend_desired_count" (.str "oops")
      (by decide) (fun m hm => Val.noConfusion hm)⟩

/-- C1 counterexample: `migrateToV4` rewrites an already-present
`backend_desired_count = 0` (a user-visible falsy value) to `1`, so a
present field is not always left unchanged. -/
theorem no_clobber_counterexample :
    lookupKey
        ((migrateToV4 [("workload",
            .map [("backend_desired_count", .int 0)])]).1) "workload"
      = some (.map [("backend_desired_count", .int 1),
          ("backend_autoscaling_enabled", .bool false),
          ("backend_autoscaling_min_capacity", .int 1),
          ("backend_autoscaling_max_capacity", .int 4),
          ("backend_cpu", .str "256"),
          ("backend_memory", .str "512"),
          ("backend_alb_domain_name", .str "")]) ∧
    Val.int 1 ≠ Val.int 0 :=
  ⟨by decide, by decide⟩

/-- C1 (amended), for the cited default-adding steps `migrateToV2` and
`migrateToV4`: a field already present (with any value, falsy included) is
left byte-identical, except for the deliberate sentinel rewrites — the three
autoscaling counts when they hold integer `0` and `backend_cpu` /
`backend_memory` when they hold the empty string (`migrateToV4`), and
`min_capacity` / `max_capacity` when `aurora` is absent (`migrateToV2`). -/
theorem no_clobber_amended :
    (∀ (d w : Doc) (k : String) (v : Val),
        getMap d "workload" = some w →
        lookupKey w k = some v →
        ¬((k = "backend_desired_count" ∨ k = "backend_autoscaling_min_capacity" ∨
           k = "backend_autoscaling_max_capacity") ∧ v = .int 0) →
        ¬((k = "backend_cpu" ∨ k = "backend_memory") ∧ v = .str "") →
        ∀ w', getMap (migrateToV4 d).1 "workload" = some w' →
          lookupKey w' k = some v) ∧
    (∀ (d : Doc) (k : String) (v : Val), k ≠ "workload" →
        lookupKey d k = some v → lookupKey (migrateToV4 d).1 k = some v) ∧
    (∀ (d pg : Doc) (k : String) (v : Val),
        getMap d "postgres" = some pg →
        lookupKey pg k = some v →
        ((lookupKey pg "aurora").isSome ∨
          (k ≠ "min_capacity" ∧ k ≠ "max_capacity")) →
        ∀ pg', getMap (migrateToV2 d).1 "postgres" = some pg' →
          lookupKey pg' k = some v) ∧
    (∀ (d : Doc) (k : String) (v : Val), k ≠ "postgres" → k ≠ "alb" →
        lookupKey d k = some v → lookupKey (migrateToV2 d).1 k = some v) ∧
    (∀ (d : Doc) (v : Val), lookupKey d "alb" = some v →
        lookupKey (migrateToV2 d).1 "alb" = some v) := by
  refine ⟨?_, ?_, ?_, ?_, ?_⟩
  · intro d w k v hw hv hx1 hx2 w' hw'
    simp only [migrateToV4] at hw'
    rw [hw] at hw'
    rw [getMap_insertKey_map_self] at hw'
    obtain rfl : _ = w' := Option.some.inj hw'
    have p1 := fixIntZero_preserve "backend_desired_count" 1 hv
      (fun hc => hx1 ⟨Or.inl hc.1, hc.2⟩)
    have p2 := addIfAbsent_preserve "backend_autoscaling_enabled" (.bool false) p1
    have p3 := fixIntZero_preserve "backend_autoscaling_min_capacity" 1 p2
      (fun hc => hx1 ⟨Or.inr (Or.inl hc.1), hc.2⟩)
    have p4 := fixIntZero_preserve "backend_autoscaling_max_capacity" 4 p3
      (fun hc => hx1 ⟨Or.inr (Or.inr hc.1), hc.2⟩)
    have p5 := fixEmptyStr_preserve "backend_cpu" "256" p4
      (fun hc => hx2 ⟨Or.inl hc.1, hc.2⟩)
    have p6 := fixEmptyStr_preserve "backend_memory" "512" p5
      (fun hc => hx2 ⟨Or.inr hc.1, hc.2⟩)
    exact addIfAbsent_preserve "backend_alb_domain_name" (.str "") p6
  · intro d k v hk hv
    exact (migrateToV4_frame d k (Ne.symm hk)).trans hv
  · intro d pg k v hpg hv haur pg' hpg'
    simp only [migrateToV2] at hpg'
    rw [getMap_congr_lookup _ _ _
      (addIfAbsent_frame _ "alb" _ "postgres" (by decide))] at hpg'
    rw [hpg] at hpg'
    split at hpg'
    · rename_i w heq
      obtain rfl : pg = w := Option.some.inj heq
      split at hpg'
      · rw [hpg] at hpg'
        obtain rfl : pg = pg' := Option.some.inj hpg'
        exact hv
      · rename_i haur2
        rw [getMap_insertKey_map_self] at hpg'
        obtain rfl : _ = pg' := Option.some.inj hpg'
        have hkaur : k ≠ "aurora" := by
          intro he
          subst he
          rw [hv] at haur2
          exact haur2 rfl
        obtain ⟨hmin, hmax⟩ := haur.resolve_left haur2
        rw [lookupKey_insertKey_ne _ _ _ _ (fun e => hmax e.symm),
            lookupKey_insertKey_ne _ _ _ _ (fun e => hmin e.symm),
            lookupKey_insertKey_ne _ _ _ _ (fun e => hkaur e.symm)]
        exact hv
    · rename_i heq
      exact Option.noConfusion heq
  · intro d k v h1 h2 hv
    exact (migrateToV2_frame d k (Ne.symm h1) (Ne.symm h2)).trans hv
  · intro d v halb
    simp only [migrateToV2]
    have hd1 : lookupKey
        (match getMap d "postgres" with
         | some postgres =>
             if (lookupKey postgres "aurora").isSome then d
             else insertKey d "postgres" (.map
               (insertKey (insertKey (insertKey postgres
                 "aurora" (.bool false)) "min_capacity" (.float 1 2))
                 "max_capacity" (.float 1 1)))
         | none => d) "alb" = some v := by
      split
      · split
        · exact halb
        · rw [lookupKey_insertKey_ne _ _ _ _ (by decide)]
          exact halb
      · exact halb
    exact addIfAbsent_preserve "alb" _ hd1

/-- Witness for C1's amended statement: concrete applications of every
conjunct, including preservation of a falsy (`bool false`) value. -/
theorem no_clobber_amended_witness :
    lookupKey [("backend_desired_count", .int 3), ("flag", .bool false),
        ("backend_autoscaling_enabled", .bool false),
        ("backend_autoscaling_min_capacity", .int 1),
        ("backend_autoscaling_max_capacity", .int 4),
        ("backend_cpu", .str "256"), ("backend_memory", .str "512"),
        ("backend_alb_domain_name", .str "")] "flag" = some (.bool false) ∧
    lookupKey (migrateToV4 [("env", .str "dev")]).1 "env" = some (.str "dev") ∧
    lookupKey [("aurora", .bool true), ("min_capacity", .float 2 1)]
      "min_capacity" = some (.float 2 1) ∧
    lookupKey (migrateToV2 [("env", .str "x")]).1 "env" = some (.str "x") ∧
    lookupKey (migrateToV2 [("alb", .bool false)]).1 "alb"
      = some (.bool false) :=
  ⟨no_clobber_amended.1
      [("workload", .map [("backend_desired_count", .int 3),
        ("flag", .bool false)])]
      [("backend_desired_count", .int 3), ("flag", .bool false)]
      "flag" (.bool false) (by decide) (by decide) (by decide) (by decide)
      [("backend_desired_count", .int 3), ("flag", .bool false),
        ("backend_autoscaling_enabled", .bool false),
        ("backend_autoscaling_min_capacity", .int 1),
        ("backend_autoscaling_max_capacity", .int 4),
        ("backend_cpu", .str "256"), ("backend_memory", .str "512"),
        ("backend_alb_domain_name", .str "")] (by decide),
   no_clobber_amended.2.1 [("env", .str "dev")] "env" (.str "dev")
      (by decide) (by decide),
   no_clobber_amended.2.2.1
      [("postgres", .map [("aurora", .bool true), ("min_capacity", .float 2 1)])]
      [("aurora", .bool true), ("min_capacity", .float 2 1)]
      "min_capacity" (.float 2 1) (by decide) (by decide)
      (Or.inl (by decide))
      [("aurora", .bool true), ("min_capacity", .float 2 1)] (by decide),
   no_clobber_amended.2.2.2.1 [("env", .str "x")] "env" (.str "x")
      (by decide) (by decide) (by decide),
   no_clobber_amended.2.2.2.2 [("alb", .bool false)] (.bool false) (by decide)⟩

theorem applyMigrationsAux_append_ok (l1 l2 : List Migration) (cur : Int)
    (d d₁ : Doc) (h : applyMigrationsAux l1 cur d = (d₁, none)) :
    applyMigrationsAux (l1 ++ l2) cur d = applyMigrationsAux l2 cur d₁ := by
  induction l1 generalizing d with
  | nil =>
      simp only [applyMigrationsAux] at h
      obtain rfl : d = d₁ := congrArg Prod.fst h
      rw [List.nil_append]
  | cons m rest ih =>
      rw [List.cons_append]
      simp only [applyMigrationsAux] at h ⊢
      by_cases hv : m.Version > cur
      · rw [if_pos hv] at h ⊢
        cases he : (m.Apply d).2 with
        | none =>
            simp only [he] at h ⊢
            exact ih _ h
        | some e =>
            simp only [he] at h
            exact absurd (congrArg Prod.snd h) (by simp)
      · rw [if_neg hv] at h ⊢
        exact ih _ h

theorem backup_path_ne (p : String) : p ≠ "backup/" ++ p := by
  intro h
  have hl := congrArg String.length h
  rw [String.length_append] at hl
  have h7 : ("backup/" : String).length = 7 := rfl
  rw [h7] at hl
  omega

/-- A migration step whose mutation function always fails: the fixture used
to exercise the runner's and the loader's failure paths. -/
def failingMigration : Migration :=
  { Version := 7, Description := "a step that always fails",
    Apply := fun d => (d, some "boom") }

/-- C6: when a step's mutation function returns an error, the runner stops
at that step (the result does not depend on the steps after it), returns the
wrapped error naming the failing step's target version, and never stamps
`schema_version`; the loader then returns the wrapped error before its
write-back, so the resolved file's contents are unchanged (only the
spec-modelled backup copy was added). -/
theorem migration_step_failure_aborts
    (pre post : List Migration) (m : Migration) (cur : Int)
    (d d₁ d₂ : Doc) (e : String)
    (parse : String → Option Doc) (marshal : Doc → String)
    (fs : String → Option String) (name yamlPath data : String)
    (lastE : Option String)
    (hcur : cur < CurrentSchemaVersion)
    (hpre : applyMigrationsAux pre cur d = (d₁, none))
    (hver : m.Version > cur)
    (happ : m.Apply d₁ = (d₂, some e))
    (hres : resolveEnvFile fs (candidatePaths name) none
      = (some (yamlPath, data), lastE))
    (hparse : parse data = some d)
    (hdet : detectSchemaVersion d = cur) :
    applyMigrationsGen (pre ++ m :: post) d cur
      = (d₂, some ("migration to v" ++ toString m.Version ++ " failed: " ++ e)) ∧
    (loadEnvWithMigrationGen (pre ++ m :: post) parse marshal fs name).1
      = .error ("migration failed: "
          ++ ("migration to v" ++ toString m.Version ++ " failed: " ++ e)) ∧
    (loadEnvWithMigrationGen (pre ++ m :: post) parse marshal fs name).2 yamlPath
      = fs yamlPath := by
  have haux : applyMigrationsAux (pre ++ m :: post) cur d
      = (d₂, some ("migration to v" ++ toString m.Version ++ " failed: " ++ e)) := by
    rw [applyMigrationsAux_append_ok pre _ cur d d₁ hpre]
    simp only [applyMigrationsAux]
    rw [if_pos hver]
    simp only [happ]
  have hgen : applyMigrationsGen (pre ++ m :: post) d cur
      = (d₂, some ("migration to v" ++ toString m.Version ++ " failed: " ++ e)) := by
    unfold applyMigrationsGen
    rw [if_neg (not_le.mpr hcur)]
    simp only [haux]
  have hload : loadEnvWithMigrationGen (pre ++ m :: post) parse marshal fs name
      = (.error ("migration failed: "
            ++ ("migration to v" ++ toString m.Version ++ " failed: " ++ e)),
         fun q => if q = "backup/" ++ yamlPath then some data else fs q) := by
    unfold loadEnvWithMigrationGen
    rw [hres]
    simp only [hparse, hdet]
    rw [if_pos hcur]
    simp only [hgen]
  refine ⟨hgen, by rw [hload], ?_⟩
  rw [hload]
  show (if yamlPath = "backup/" ++ yamlPath then some data else fs yamlPath)
    = fs yamlPath
  rw [if_neg (backup_path_ne yamlPath)]

/-- Witness for C6: a loader run over a one-step registry whose only step
fails, on a one-file file system. -/
theorem migration_step_failure_aborts_witness :
    applyMigrationsGen [failingMigration] [] 1
      = ([], some "migration to v7 failed: boom") ∧
    (loadEnvWithMigrationGen [failingMigration] (fun _ => some []) (fun _ => "")
        (fun q => if q = "dev.yaml" then some "contents" else none) "dev").1
      = .error "migration failed: migration to v7 failed: boom" ∧
    (loadEnvWithMigrationGen [failingMigration] (fun _ => some []) (fun _ => "")
        (fun q => if q = "dev.yaml" then some "contents" else none) "dev").2
        "dev.yaml"
      = (fun q => if q = "dev.yaml" then some "contents" else none) "dev.yaml" := by
  have h := migration_step_failure_aborts [] [] failingMigration 1 [] [] []
    "boom" (fun _ => some []) (fun _ => "")
    (fun q => if q = "dev.yaml" then some "contents" else none) "dev" "dev.yaml"
    "contents" none (by decide) rfl (by decide) rfl rfl rfl rfl
  exact h

set_option maxRecDepth 10000 in
/-- C9 counterexample: with no candidate readable, the loader's error embeds
only the last candidate's read error, so the attempted path
`project/dev.yaml` appears nowhere in the message. -/
theorem load_error_paths_counterexample :
    (loadEnvWithMigrationGen AllMigrations (fun _ => some []) (fun _ => "")
        (fun _ => none) "dev").1
      = .error "error reading YAML file from any location: open ../dev.yaml: no such file or directory" ∧
    "project/dev.yaml" ∈ candidatePaths "dev" ∧
    ¬ List.IsInfix "project/dev.yaml".data
        "error reading YAML file from any location: open ../dev.yaml: no such file or directory".data :=
  ⟨rfl, by decide, by decide⟩

/-- C9 (amended): when every candidate path fails to read, the loader's
error message is built from `lastErr` alone, so it embeds — and therefore
names — exactly the last attempted path `../<name>.yaml`, and the file
system is untouched. -/
theorem load_error_names_last_path
    (fs : String → Option String) (name : String)
    (parse : String → Option Doc) (marshal : Doc → String)
    (migs : List Migration)
    (h : ∀ p ∈ candidatePaths name, fs p = none) :
    (loadEnvWithMigrationGen migs parse marshal fs name).1
      = .error ("error reading YAML file from any location: "
          ++ readErrMsg ("../" ++ name ++ ".yaml")) ∧
    List.IsInfix ("../" ++ name ++ ".yaml").data
      ("error reading YAML file from any location: "
          ++ readErrMsg ("../" ++ name ++ ".yaml")).data ∧
    (loadEnvWithMigrationGen migs parse marshal fs name).2 = fs := by
  have h1 := h (name ++ ".yaml") (by simp [candidatePaths])
  have h2 := h ("project/" ++ name ++ ".yaml") (by simp [candidatePaths])
  have h3 := h ("../../project/" ++ name ++ ".yaml") (by simp [candidatePaths])
  have h4 := h ("../" ++ name ++ ".yaml") (by simp [candidatePaths])
  have hres : resolveEnvFile fs (candidatePaths name) none
      = (none, some (readErrMsg ("../" ++ name ++ ".yaml"))) := by
    simp only [candidatePaths, resolveEnvFile, h1, h2, h3, h4]
  refine ⟨?_, ?_, ?_⟩
  · unfold loadEnvWithMigrationGen
    rw [hres]
    rfl
  · refine ⟨"error reading YAML file from any location: open ".data,
      ": no such file or directory".data, ?_⟩
    simp only [readErrMsg, String.data_append]
    simp [List.append_assoc]
  · unfold loadEnvWithMigrationGen
    rw [hres]

/-- Witness for C9's amended statement on an empty file system. -/
theorem load_error_names_last_path_witness :
    (loadEnvWithMigrationGen AllMigrations (fun _ => some []) (fun _ => "")
        (fun _ => none) "prod").1
      = .error ("error reading YAML file from any location: "
          ++ readErrMsg ("../" ++ "prod" ++ ".yaml")) ∧
    List.IsInfix ("../" ++ "prod" ++ ".yaml").data
      ("error reading YAML file from any location: "
          ++ readErrMsg ("../" ++ "prod" ++ ".yaml")).data ∧
    (loadEnvWithMigrationGen AllMigrations (fun _ => some []) (fun _ => "")
        (fun _ => none) "prod").2 = (fun _ => none) :=
  load_error_names_last_path (fun _ => none) "prod" (fun _ => some [])
    (fun _ => "") AllMigrations (fun _ _ => rfl)
